import Mathlib

/-!
# musicbox: the track / playlist store behind `server/server.js`

A shallow embedding of the ten request handlers of `server/server.js` as pure
functions `World → Outcome × World`.

* `World` is what the handlers read and write: the three tables reached through
  `db.execute`, the upload directory reached through `multer` and `fs`, the two
  AUTO_INCREMENT counters and the console.
* `Env` is what one request gets from outside the source: which `db.execute`
  calls reject, the clock, the file name `multer` picks, and whether
  `fs.unlinkSync` throws.
* `Binding` is the conversion the database applies to a bound parameter; the
  handlers and every general theorem are parametric in it.
* `Outcome` is either the response that was sent, by the handler or, for a file
  `res.sendFile` could not serve, by the framework, or the error that left the
  handler without a response.

JSON arrays and objects as field values are outside the model (`JsVal` holds the
scalars), and so are faults of the middleware that runs before a handler.
-/

namespace Musicbox

/-! ## Values -/

/-- Scalar JavaScript values: what a JSON body field holds, `undefined` when the
field is absent. -/
inductive JsVal where
  | undefined
  | null
  | bool (b : Bool)
  | num (n : Int)
  | str (s : String)
  deriving DecidableEq, Repr

/-- JavaScript truthiness, the test behind `!x` and `x && y`. -/
def JsVal.truthy : JsVal → Bool
  | .undefined => false
  | .null => false
  | .bool b => b
  | .num n => n != 0
  | .str s => s != ""

/-- Destructuring default `{ x = d } = obj`: the default replaces `undefined` only. -/
def JsVal.orDefault (v d : JsVal) : JsVal :=
  match v with
  | .undefined => d
  | _ => v

/-- Conversion of a bound statement parameter to the value an integer or a text
column receives. It belongs to the database, not to the source, and is a
parameter of the model. -/
structure Binding where
  toInt : JsVal → Int
  toText : JsVal → String

/-- Value of a string of decimal digits, `0` for any other string. -/
def decimalValue (cs : List Char) : Int :=
  if cs ≠ [] ∧ cs.all (fun c => decide (48 ≤ c.toNat ∧ c.toNat ≤ 57)) = true then
    ((cs.foldl (fun acc c => acc * 10 + (c.toNat - 48)) 0 : Nat) : Int)
  else 0

/-- A concrete conversion used for the worked examples: numbers are themselves,
decimal strings are their value, booleans are `1` and `0`. -/
def decimalBinding : Binding where
  toInt := fun v =>
    match v with
    | .num n => n
    | .str s => decimalValue s.data
    | .bool b => if b then 1 else 0
    | _ => 0
  toText := fun v =>
    match v with
    | .str s => s
    | .num n => toString n
    | .bool b => toString b
    | _ => ""

/-! ## Tables

Modelled from the spec (section 3): the schema file is not among the sources.
The column lists are the ones the statements in `server.js` name. -/

/-- Modelled from the spec: a row of `tracks`; the schema is missing from the
sources. `cover_url` and `duration_seconds` are optional, `id` is system-assigned,
`created_at` is the creation timestamp. -/
structure TrackRow where
  id : Int
  title : String
  artist : String
  album : String
  file_path : String
  cover_url : Option String
  duration_seconds : Option Int
  created_at : Nat
  deriving DecidableEq, Repr

/-- Modelled from the spec: a row of `playlists`; the schema is missing from the
sources. -/
structure PlaylistRow where
  id : Int
  name : String
  created_at : Nat
  deriving DecidableEq, Repr

/-- Modelled from the spec: a row of `playlist_tracks`; the schema is missing from
the sources. The pair `(playlist_id, track_id)` is the uniqueness key, and no
foreign key ties the row to `tracks` or `playlists`. -/
structure PlaylistTrackRow where
  playlist_id : Int
  track_id : Int
  position : Int
  deriving DecidableEq, Repr

/-- A file of the upload directory. -/
structure StoredFile where
  path : String
  bytes : List Nat
  deriving DecidableEq, Repr

/-- Everything the handlers read and write. -/
structure World where
  tracks : List TrackRow
  playlists : List PlaylistRow
  playlist_tracks : List PlaylistTrackRow
  files : List StoredFile
  trackAutoInc : Int
  playlistAutoInc : Int
  log : List String
  deriving DecidableEq, Repr

/-- The store before any request: no rows, no files, counters at `1`. -/
def World.empty : World :=
  ⟨[], [], [], [], 1, 1, []⟩

/-- What one request receives from outside the source. -/
structure Env where
  /-- Entry `i` is the error with which the `i`-th `db.execute` of the request
  rejects, `none` (or no entry) when it resolves. -/
  dbFaults : List (Option String)
  /-- The clock: value of a defaulted `created_at`. -/
  now : Nat
  /-- The error `fs.unlinkSync` throws, if it throws. -/
  unlinkError : Option String
  /-- The file name `multer` generates for the upload. -/
  tmpName : String
  /-- The variable `process.env.UPLOAD_DIR`. -/
  UPLOAD_DIR : Option String
  deriving DecidableEq, Repr

/-- An environment in which nothing fails. -/
def Env.calm (now : Nat) (tmpName : String) : Env :=
  ⟨[], now, none, tmpName, none⟩

/-- The error of the `i`-th `db.execute` of the request, if it rejects. -/
def dbFault (env : Env) (i : Nat) : Option String :=
  (env.dbFaults.get? i).join

/-! ## Responses -/

/-- One element of the `GET /api/tracks` array: the six selected columns. -/
structure TrackListing where
  id : Int
  title : String
  artist : String
  album : String
  cover_url : Option String
  duration_seconds : Option Int
  deriving DecidableEq, Repr

/-- One element of the `GET /api/playlists` array. -/
structure PlaylistListing where
  id : Int
  name : String
  deriving DecidableEq, Repr

/-- One element of the `GET /api/playlist-tracks` array. -/
structure MembershipListing where
  playlist_id : Int
  track_id : Int
  deriving DecidableEq, Repr

/-- Response bodies. -/
inductive Body where
  /-- `res.sendStatus(code)`: the status line only. -/
  | statusText
  /-- `{ error: msg }`. -/
  | error (msg : String)
  /-- `{ ok: true }`. -/
  | ok
  /-- `{ id, title, artist, album, filePath }`. -/
  | track (id : Int) (title artist album filePath : String)
  | tracks (rows : List TrackListing)
  /-- `{ id, name }`, the name as it came in the request. -/
  | playlist (id : Int) (name : JsVal)
  | playlists (rows : List PlaylistListing)
  | memberships (rows : List MembershipListing)
  /-- The content of a file, from `res.sendFile`. -/
  | file (bytes : List Nat)
  /-- The error page with which the framework answers when `res.sendFile` could
  not serve the file. -/
  | errorPage
  deriving DecidableEq, Repr

/-- How a handler invocation ends. -/
inductive Outcome where
  /-- The handler sent a response. -/
  | sent (status : Nat) (body : Body)
  /-- An error left the handler (a rejected `await`): no response is sent. -/
  | raised (err : String)
  deriving DecidableEq, Repr

/-! ## File store -/

/-- `fs.existsSync(p)`. -/
def existsSync (w : World) (p : String) : Bool :=
  w.files.any (fun f => f.path == p)

/-- Content of the file at `p`, if there is one. -/
def readFile (w : World) (p : String) : Option (List Nat) :=
  (w.files.find? (fun f => f.path == p)).map (fun f => f.bytes)

/-- `process.env.UPLOAD_DIR || 'uploads'`. -/
def uploadDir (env : Env) : String :=
  match env.UPLOAD_DIR with
  | some d => if d != "" then d else "uploads"
  | none => "uploads"

/-- The `file` part of a multipart upload. -/
structure Upload where
  originalname : String
  bytes : List Nat
  deriving DecidableEq, Repr

/-- The descriptor `req.file` that `multer` leaves for the handler. -/
structure ReqFile where
  originalname : String
  path : String
  deriving DecidableEq, Repr

/-- The text fields of the multipart body of `POST /api/tracks`. -/
structure TrackFields where
  title : Option String
  artist : Option String
  album : Option String
  deriving DecidableEq, Repr

/-- The middleware `upload.single('file')`: a `file` part is written under the
upload directory with a generated name and described in `req.file`; without such
a part nothing is written and `req.file` stays undefined. -/
def uploadSingle (env : Env) (part : Option Upload) (w : World) : Option ReqFile × World :=
  match part with
  | none => (none, w)
  | some u =>
    let p := uploadDir env ++ "/" ++ env.tmpName
    (some ⟨u.originalname, p⟩,
      { w with files := ⟨p, u.bytes⟩ :: w.files.filter (fun f => f.path != p) })

/-- The status of the response, if one was sent. -/
def Outcome.status : Outcome → Option Nat
  | .sent status _ => some status
  | .raised _ => none

/-- The final segment of a path: what follows its last `/`. -/
def baseName (p : String) : List Char :=
  p.data.foldl (fun acc c => if c = '/' then [] else acc ++ [c]) []

/-- The dotfile rule of `res.sendFile` called without options: a file whose name
has more than one character and begins with a dot is ignored. -/
def dotfileIgnored (p : String) : Bool :=
  match baseName p with
  | '.' :: _ :: _ => true
  | _ => false

/-- `res.sendFile(path.resolve(p))`, called without a callback. The file store is
keyed by the paths as the process sees them from its working directory, and
`path.resolve` keeps the file and its name. A file that is there and is not an
ignored dotfile is served; otherwise the error goes to the framework, which
answers status 404 with its error page. -/
def sendFile (w : World) (p : String) : Outcome :=
  if dotfileIgnored p then .sent 404 .errorPage
  else
    match readFile w p with
    | some bytes => .sent 200 (.file bytes)
    | none => .sent 404 .errorPage

/-! ## Track Service -/

/-- Handler of `POST /api/tracks`, after the upload middleware. The whole body is
inside `try`/`catch`: a rejected insert is logged and answered with status 500. -/
def postTrack (env : Env) (reqFile : Option ReqFile) (body : TrackFields) (w : World) :
    Outcome × World :=
  match reqFile with
  | none => (.sent 400 (.error "No file provided"), w)
  | some f =>
    let title := body.title.getD f.originalname
    let artist := body.artist.getD ""
    let album := body.album.getD ""
    let filePath := f.path
    match dbFault env 0 with
    | some err => (.sent 500 (.error "Upload failed"), { w with log := w.log ++ [err] })
    | none =>
      let insertId := w.trackAutoInc
      (.sent 200 (.track insertId title artist album filePath),
        { w with
          tracks := w.tracks ++ [⟨insertId, title, artist, album, filePath, none, none, env.now⟩]
          trackAutoInc := insertId + 1 })

/-- The operation `ingest`: the upload middleware, then the handler. -/
def ingest (env : Env) (part : Option Upload) (body : TrackFields) (w : World) :
    Outcome × World :=
  postTrack env (uploadSingle env part w).1 body (uploadSingle env part w).2

/-- The projection `SELECT id, title, artist, album, cover_url, duration_seconds`. -/
def TrackRow.listing (r : TrackRow) : TrackListing :=
  ⟨r.id, r.title, r.artist, r.album, r.cover_url, r.duration_seconds⟩

/-- The clause `ORDER BY created_at DESC` on `tracks`. -/
def tracksByCreatedDesc (rows : List TrackRow) : List TrackRow :=
  rows.insertionSort (fun a b => b.created_at ≤ a.created_at)

/-- Handler of `GET /api/tracks`. -/
def getTracks (env : Env) (w : World) : Outcome × World :=
  match dbFault env 0 with
  | some err => (.raised err, w)
  | none => (.sent 200 (.tracks ((tracksByCreatedDesc w.tracks).map TrackRow.listing)), w)

/-- Handler of `GET /api/tracks/:id/stream`. -/
def streamTrack (b : Binding) (env : Env) (id : String) (w : World) : Outcome × World :=
  match dbFault env 0 with
  | some err => (.raised err, w)
  | none =>
    let rows := (w.tracks.filter (fun r => r.id == b.toInt (.str id))).map (fun r => r.file_path)
    match rows with
    | [] => (.sent 404 .statusText, w)
    | file_path :: _ => (sendFile w file_path, w)

/-- The statements `if (filePath && fs.existsSync(filePath)) try unlinkSync catch warn`
of the track deletion. -/
def unlinkBestEffort (env : Env) (filePath : String) (w : World) : World :=
  if (JsVal.str filePath).truthy && existsSync w filePath then
    match env.unlinkError with
    | some msg => { w with log := w.log ++ ["Failed to delete file " ++ msg] }
    | none => { w with files := w.files.filter (fun f => f.path != filePath) }
  else w

/-- Handler of `DELETE /api/tracks/:id`. -/
def deleteTrack (b : Binding) (env : Env) (id : String) (w : World) : Outcome × World :=
  let trackId := b.toInt (.str id)
  match dbFault env 0 with
  | some err => (.raised err, w)
  | none =>
    let rows := (w.tracks.filter (fun r => r.id == trackId)).map (fun r => r.file_path)
    match rows with
    | [] => (.sent 404 .statusText, w)
    | file_path :: _ =>
      match dbFault env 1 with
      | some err => (.raised err, w)
      | none =>
        let w1 := { w with tracks := w.tracks.filter (fun r => r.id != trackId) }
        (.sent 200 .ok, unlinkBestEffort env file_path w1)

/-! ## Playlist Service -/

/-- The JSON body of `POST /api/playlists`. -/
structure PlaylistBody where
  name : JsVal
  deriving DecidableEq, Repr

/-- The JSON body of `POST /api/playlists/:id/tracks`. -/
structure MembershipBody where
  trackId : JsVal
  position : JsVal
  deriving DecidableEq, Repr

/-- Handler of `POST /api/playlists`. -/
def postPlaylist (b : Binding) (env : Env) (body : PlaylistBody) (w : World) : Outcome × World :=
  if !body.name.truthy then (.sent 400 (.error "Name required"), w)
  else
    match dbFault env 0 with
    | some err => (.raised err, w)
    | none =>
      let insertId := w.playlistAutoInc
      (.sent 200 (.playlist insertId body.name),
        { w with
          playlists := w.playlists ++ [⟨insertId, b.toText body.name, env.now⟩]
          playlistAutoInc := insertId + 1 })

/-- Handler of `GET /api/playlists`. -/
def getPlaylists (env : Env) (w : World) : Outcome × World :=
  match dbFault env 0 with
  | some err => (.raised err, w)
  | none =>
    (.sent 200 (.playlists
      ((w.playlists.insertionSort (fun x y => y.created_at ≤ x.created_at)).map
        (fun r => ⟨r.id, r.name⟩))), w)

/-- Modelled from the spec: `INSERT IGNORE INTO playlist_tracks` under the
uniqueness key `(playlist_id, track_id)`; the schema is missing from the sources.
A row whose pair is already in the table is dropped without an error. -/
def insertIgnore (row : PlaylistTrackRow) (table : List PlaylistTrackRow) :
    List PlaylistTrackRow :=
  if table.any (fun r => r.playlist_id == row.playlist_id && r.track_id == row.track_id) then table
  else table ++ [row]

/-- Handler of `POST /api/playlists/:id/tracks`. -/
def addTrack (b : Binding) (env : Env) (id : String) (body : MembershipBody) (w : World) :
    Outcome × World :=
  let trackId := body.trackId
  let position := body.position.orDefault (.num 0)
  if !trackId.truthy then (.sent 400 (.error "trackId required"), w)
  else
    match dbFault env 0 with
    | some err => (.raised err, w)
    | none =>
      (.sent 200 .ok,
        { w with
          playlist_tracks :=
            insertIgnore ⟨b.toInt (.str id), b.toInt trackId, b.toInt position⟩ w.playlist_tracks })

/-- The projection `SELECT playlist_id, track_id`. -/
def PlaylistTrackRow.listing (r : PlaylistTrackRow) : MembershipListing :=
  ⟨r.playlist_id, r.track_id⟩

/-- Handler of `GET /api/playlist-tracks`. -/
def listMemberships (env : Env) (w : World) : Outcome × World :=
  match dbFault env 0 with
  | some err => (.raised err, w)
  | none => (.sent 200 (.memberships (w.playlist_tracks.map PlaylistTrackRow.listing)), w)

/-- Handler of `DELETE /api/playlists/:id`. -/
def deletePlaylist (b : Binding) (env : Env) (id : String) (w : World) : Outcome × World :=
  match dbFault env 0 with
  | some err => (.raised err, w)
  | none =>
    (.sent 200 .ok, { w with playlists := w.playlists.filter (fun r => r.id != b.toInt (.str id)) })

/-- Handler of `DELETE /api/playlists/:pid/tracks/:tid`. -/
def removeTrack (b : Binding) (env : Env) (pid tid : String) (w : World) : Outcome × World :=
  match dbFault env 0 with
  | some err => (.raised err, w)
  | none =>
    (.sent 200 .ok,
      { w with
        playlist_tracks := w.playlist_tracks.filter
          (fun r => !(r.playlist_id == b.toInt (.str pid) && r.track_id == b.toInt (.str tid))) })

/-! ## The service as a whole -/

/-- The requests the service answers. -/
inductive Request where
  | postTrack (part : Option Upload) (body : TrackFields)
  | getTracks
  | streamTrack (id : String)
  | postPlaylist (body : PlaylistBody)
  | getPlaylists
  | addTrack (id : String) (body : MembershipBody)
  | listMemberships
  | deletePlaylist (id : String)
  | removeTrack (pid tid : String)
  | deleteTrack (id : String)
  deriving DecidableEq, Repr

/-- Route dispatch. -/
def handle (b : Binding) (env : Env) (r : Request) (w : World) : Outcome × World :=
  match r with
  | .postTrack part body => ingest env part body w
  | .getTracks => getTracks env w
  | .streamTrack id => streamTrack b env id w
  | .postPlaylist body => postPlaylist b env body w
  | .getPlaylists => getPlaylists env w
  | .addTrack id body => addTrack b env id body w
  | .listMemberships => listMemberships env w
  | .deletePlaylist id => deletePlaylist b env id w
  | .removeTrack pid tid => removeTrack b env pid tid w
  | .deleteTrack id => deleteTrack b env id w

/-- The store states the service can be in: those reached from the empty store by
a sequence of requests, each in an environment of its own. -/
inductive Reachable (b : Binding) : World → Prop where
  | empty : Reachable b World.empty
  | step {w : World} (env : Env) (r : Request) :
      Reachable b w → Reachable b (handle b env r w).2

/-- The uniqueness key of `playlist_tracks` holds: no two rows share their pair. -/
def UniquePairs (w : World) : Prop :=
  (w.playlist_tracks.map PlaylistTrackRow.listing).Nodup

/-- The identifiers of `tracks` are system-assigned: no two rows share one, and
each is below the AUTO_INCREMENT counter. -/
def TrackIdsFresh (w : World) : Prop :=
  (w.tracks.map (fun r => r.id)).Nodup ∧ ∀ r ∈ w.tracks, r.id < w.trackAutoInc

/-! ## Lemmas on the membership table -/

theorem listing_eq_iff (r s : PlaylistTrackRow) :
    r.listing = s.listing ↔ r.playlist_id = s.playlist_id ∧ r.track_id = s.track_id := by
  cases r; cases s; simp [PlaylistTrackRow.listing]

theorem any_pair_iff (row : PlaylistTrackRow) (table : List PlaylistTrackRow) :
    table.any (fun r => r.playlist_id == row.playlist_id && r.track_id == row.track_id) = true ↔
      row.listing ∈ table.map PlaylistTrackRow.listing := by
  simp only [List.any_eq_true, List.mem_map, Bool.and_eq_true, beq_iff_eq]
  constructor
  · rintro ⟨r, hr, h⟩
    exact ⟨r, hr, (listing_eq_iff r row).mpr h⟩
  · rintro ⟨r, hr, h⟩
    exact ⟨r, hr, (listing_eq_iff r row).mp h⟩

theorem insertIgnore_of_mem (row : PlaylistTrackRow) (table : List PlaylistTrackRow)
    (h : row.listing ∈ table.map PlaylistTrackRow.listing) : insertIgnore row table = table := by
  unfold insertIgnore
  rw [if_pos ((any_pair_iff row table).mpr h)]

theorem insertIgnore_of_not_mem (row : PlaylistTrackRow) (table : List PlaylistTrackRow)
    (h : row.listing ∉ table.map PlaylistTrackRow.listing) :
    insertIgnore row table = table ++ [row] := by
  unfold insertIgnore
  rw [if_neg (fun hc => h ((any_pair_iff row table).mp hc))]

theorem listing_mem_insertIgnore (row : PlaylistTrackRow) (table : List PlaylistTrackRow) :
    row.listing ∈ (insertIgnore row table).map PlaylistTrackRow.listing := by
  by_cases h : row.listing ∈ table.map PlaylistTrackRow.listing
  · rw [insertIgnore_of_mem row table h]; exact h
  · rw [insertIgnore_of_not_mem row table h]; simp

theorem nodup_insertIgnore (row : PlaylistTrackRow) (table : List PlaylistTrackRow)
    (h : (table.map PlaylistTrackRow.listing).Nodup) :
    ((insertIgnore row table).map PlaylistTrackRow.listing).Nodup := by
  by_cases hm : row.listing ∈ table.map PlaylistTrackRow.listing
  · rw [insertIgnore_of_mem row table hm]; exact h
  · rw [insertIgnore_of_not_mem row table hm, List.map_append, List.nodup_append]
    refine ⟨h, by simp, ?_⟩
    intro a ha hb
    simp only [List.map_cons, List.map_nil, List.mem_singleton] at hb
    exact hm (hb ▸ ha)

/-! ## What each handler does to the membership table -/

theorem addTrack_ok_iff (b : Binding) (env : Env) (id : String) (body : MembershipBody)
    (w : World) :
    (addTrack b env id body w).1 = .sent 200 .ok ↔
      body.trackId.truthy = true ∧ dbFault env 0 = none := by
  unfold addTrack
  cases ht : body.trackId.truthy <;> cases hf : dbFault env 0 <;> simp [ht, hf]

theorem addTrack_table (b : Binding) (env : Env) (id : String) (body : MembershipBody)
    (w : World) (ht : body.trackId.truthy = true) (hf : dbFault env 0 = none) :
    (addTrack b env id body w).2.playlist_tracks =
      insertIgnore ⟨b.toInt (.str id), b.toInt body.trackId,
        b.toInt (body.position.orDefault (.num 0))⟩ w.playlist_tracks := by
  unfold addTrack
  simp [ht, hf]

theorem addTrack_uniquePairs (b : Binding) (env : Env) (id : String) (body : MembershipBody)
    (w : World) (h : UniquePairs w) : UniquePairs (addTrack b env id body w).2 := by
  unfold addTrack UniquePairs
  cases ht : body.trackId.truthy <;> cases hf : dbFault env 0 <;> simp [ht, hf]
  all_goals first | exact h | exact nodup_insertIgnore _ _ h

theorem removeTrack_uniquePairs (b : Binding) (env : Env) (pid tid : String) (w : World)
    (h : UniquePairs w) : UniquePairs (removeTrack b env pid tid w).2 := by
  unfold removeTrack UniquePairs
  cases hf : dbFault env 0 <;> simp
  · exact (List.filter_sublist _).map _ |>.nodup h
  · exact h

theorem unlinkBestEffort_playlist_tracks (env : Env) (p : String) (w : World) :
    (unlinkBestEffort env p w).playlist_tracks = w.playlist_tracks := by
  unfold unlinkBestEffort
  split
  · split <;> rfl
  · rfl

theorem deleteTrack_playlist_tracks (b : Binding) (env : Env) (id : String) (w : World) :
    (deleteTrack b env id w).2.playlist_tracks = w.playlist_tracks := by
  unfold deleteTrack
  simp only
  split
  · rfl
  · split
    · rfl
    · split
      · rfl
      · simp [unlinkBestEffort_playlist_tracks]

theorem deletePlaylist_playlist_tracks (b : Binding) (env : Env) (id : String) (w : World) :
    (deletePlaylist b env id w).2.playlist_tracks = w.playlist_tracks := by
  unfold deletePlaylist
  split <;> rfl

theorem ingest_playlist_tracks (env : Env) (part : Option Upload) (body : TrackFields)
    (w : World) : (ingest env part body w).2.playlist_tracks = w.playlist_tracks := by
  unfold ingest postTrack uploadSingle
  cases part <;> simp
  split <;> rfl

theorem handle_uniquePairs (b : Binding) (env : Env) (r : Request) (w : World)
    (h : UniquePairs w) : UniquePairs (handle b env r w).2 := by
  cases r with
  | postTrack part body =>
    show ((ingest env part body w).2.playlist_tracks.map PlaylistTrackRow.listing).Nodup
    rw [ingest_playlist_tracks]; exact h
  | getTracks =>
    show UniquePairs (getTracks env w).2
    unfold getTracks; split <;> exact h
  | streamTrack id =>
    show UniquePairs (streamTrack b env id w).2
    unfold streamTrack
    simp only
    split
    · exact h
    · split <;> exact h
  | postPlaylist body =>
    show UniquePairs (postPlaylist b env body w).2
    unfold postPlaylist
    split
    · exact h
    · split <;> exact h
  | getPlaylists =>
    show UniquePairs (getPlaylists env w).2
    unfold getPlaylists; split <;> exact h
  | addTrack id body => exact addTrack_uniquePairs b env id body w h
  | listMemberships =>
    show UniquePairs (listMemberships env w).2
    unfold listMemberships; split <;> exact h
  | deletePlaylist id =>
    show ((deletePlaylist b env id w).2.playlist_tracks.map PlaylistTrackRow.listing).Nodup
    rw [deletePlaylist_playlist_tracks]; exact h
  | removeTrack pid tid => exact removeTrack_uniquePairs b env pid tid w h
  | deleteTrack id =>
    show ((deleteTrack b env id w).2.playlist_tracks.map PlaylistTrackRow.listing).Nodup
    rw [deleteTrack_playlist_tracks]; exact h

theorem reachable_uniquePairs (b : Binding) (w : World) (h : Reachable b w) : UniquePairs w := by
  induction h with
  | empty => simp [UniquePairs, World.empty]
  | step env r _ ih => exact handle_uniquePairs b env r _ ih

theorem listMemberships_ok (env : Env) (w : World) (hf : dbFault env 0 = none) :
    listMemberships env w =
      (.sent 200 (.memberships (w.playlist_tracks.map PlaylistTrackRow.listing)), w) := by
  unfold listMemberships
  simp [hf]

/-! ## Playlist membership: the claims -/

/-- C1: in every store state reachable from the empty store, when
`addTrack(playlistId, trackId, position)` succeeds twice in a row, with any two
positions, the `listMemberships()` that follows lists the pair
`(playlistId, trackId)` exactly once, and the second call leaves the membership
table exactly as the first call left it. -/
theorem addTrack_twice_one_membership (b : Binding) (w : World) (env1 env2 env3 : Env)
    (id : String) (trackId pos1 pos2 : JsVal)
    (hw : Reachable b w)
    (h1 : (addTrack b env1 id ⟨trackId, pos1⟩ w).1 = .sent 200 .ok)
    (h2 : (addTrack b env2 id ⟨trackId, pos2⟩ (addTrack b env1 id ⟨trackId, pos1⟩ w).2).1
      = .sent 200 .ok)
    (h3 : dbFault env3 0 = none) :
    (∃ rows,
      (listMemberships env3
          (addTrack b env2 id ⟨trackId, pos2⟩ (addTrack b env1 id ⟨trackId, pos1⟩ w).2).2).1
        = .sent 200 (.memberships rows) ∧
      rows.count ⟨b.toInt (.str id), b.toInt trackId⟩ = 1) ∧
    (addTrack b env2 id ⟨trackId, pos2⟩ (addTrack b env1 id ⟨trackId, pos1⟩ w).2).2.playlist_tracks
      = (addTrack b env1 id ⟨trackId, pos1⟩ w).2.playlist_tracks := by
  obtain ⟨ht, hf1⟩ := (addTrack_ok_iff b env1 id ⟨trackId, pos1⟩ w).mp h1
  obtain ⟨_, hf2⟩ := (addTrack_ok_iff b env2 id ⟨trackId, pos2⟩ _).mp h2
  have hu1 : UniquePairs (addTrack b env1 id ⟨trackId, pos1⟩ w).2 :=
    addTrack_uniquePairs b env1 id _ w (reachable_uniquePairs b w hw)
  have hmem1 : (⟨b.toInt (.str id), b.toInt trackId⟩ : MembershipListing) ∈
      (addTrack b env1 id ⟨trackId, pos1⟩ w).2.playlist_tracks.map PlaylistTrackRow.listing := by
    rw [addTrack_table b env1 id ⟨trackId, pos1⟩ w ht hf1]
    exact listing_mem_insertIgnore _ _
  have hsame :
      (addTrack b env2 id ⟨trackId, pos2⟩
          (addTrack b env1 id ⟨trackId, pos1⟩ w).2).2.playlist_tracks
        = (addTrack b env1 id ⟨trackId, pos1⟩ w).2.playlist_tracks := by
    rw [addTrack_table b env2 id ⟨trackId, pos2⟩ _ ht hf2]
    exact insertIgnore_of_mem _ _ hmem1
  refine ⟨⟨_, by rw [listMemberships_ok env3 _ h3], ?_⟩, hsame⟩
  rw [hsame]
  exact List.count_eq_one_of_mem hu1 hmem1

/-- Witness of C1: on the empty store, playlist `1` and track `7` added at
position `0` and again at position `5`. -/
theorem addTrack_twice_one_membership_witness :
    (∃ rows,
      (listMemberships (Env.calm 2 "c")
          (addTrack decimalBinding (Env.calm 1 "b") "1" ⟨.num 7, .num 5⟩
            (addTrack decimalBinding (Env.calm 0 "a") "1" ⟨.num 7, .num 0⟩ World.empty).2).2).1
        = .sent 200 (.memberships rows) ∧
      rows.count ⟨decimalBinding.toInt (.str "1"), decimalBinding.toInt (.num 7)⟩ = 1) ∧
    (addTrack decimalBinding (Env.calm 1 "b") "1" ⟨.num 7, .num 5⟩
        (addTrack decimalBinding (Env.calm 0 "a") "1" ⟨.num 7, .num 0⟩
          World.empty).2).2.playlist_tracks
      = (addTrack decimalBinding (Env.calm 0 "a") "1" ⟨.num 7, .num 0⟩
          World.empty).2.playlist_tracks :=
  addTrack_twice_one_membership decimalBinding World.empty (Env.calm 0 "a") (Env.calm 1 "b")
    (Env.calm 2 "c") "1" (.num 7) (.num 0) (.num 5) Reachable.empty (by decide) (by decide)
    (by decide)

theorem not_pair_iff (x p y t : Int) : (!(x == p && y == t)) = true ↔ ¬(x = p ∧ y = t) := by
  by_cases h1 : x = p <;> by_cases h2 : y = t <;> simp [h1, h2]

theorem listMemberships_fst_congr (env : Env) (w w' : World)
    (h : w'.playlist_tracks = w.playlist_tracks) :
    (listMemberships env w').1 = (listMemberships env w).1 := by
  unfold listMemberships
  split <;> simp [h]

/-- C9: deleting a track and deleting a playlist both leave the membership table
unchanged, in every store state and whatever the environment does:
`listMemberships()` answers after the deletion what it answered before, pairs of
the deleted track or playlist included. In the scenario of the spec (playlist
`1`, a track ingested as `7`, `addTrack(1,7,0)`, `delete(7)`) the track list is
empty afterwards and the pair `(1,7)` is still listed. -/
theorem deletes_keep_memberships (b : Binding) (env env' : Env) (id : String) (w : World) :
    (deleteTrack b env id w).2.playlist_tracks = w.playlist_tracks ∧
    (deletePlaylist b env id w).2.playlist_tracks = w.playlist_tracks ∧
    (listMemberships env' (deleteTrack b env id w).2).1 = (listMemberships env' w).1 ∧
    (listMemberships env' (deletePlaylist b env id w).2).1 = (listMemberships env' w).1 ∧
    (deleteTrack decimalBinding (Env.calm 3 "d") "7"
        (addTrack decimalBinding (Env.calm 2 "c") "1" ⟨.num 7, .num 0⟩
          (ingest (Env.calm 1 "b") (some ⟨"a.mp3", [1, 2, 3]⟩) ⟨some "Song A", none, none⟩
            (postPlaylist decimalBinding (Env.calm 0 "a") ⟨.str "Road Trip"⟩
              { World.empty with trackAutoInc := 7 }).2).2).2)
      = (.sent 200 .ok,
          ⟨[], [⟨1, "Road Trip", 0⟩], [⟨1, 7, 0⟩], [], 8, 2, []⟩) ∧
    (listMemberships (Env.calm 4 "e")
        ⟨[], [⟨1, "Road Trip", 0⟩], [⟨1, 7, 0⟩], [], 8, 2, []⟩).1
      = .sent 200 (.memberships [⟨1, 7⟩]) := by
  refine ⟨deleteTrack_playlist_tracks b env id w, deletePlaylist_playlist_tracks b env id w,
    listMemberships_fst_congr env' w _ (deleteTrack_playlist_tracks b env id w),
    listMemberships_fst_congr env' w _ (deletePlaylist_playlist_tracks b env id w), ?_, ?_⟩
  · decide
  · decide

/-- C10: when the store does not fail, `removeTrack(playlistId, trackId)` succeeds in
every store state; afterwards no membership row matches both identifiers, every
other row is in the table as often as before, nothing but the membership table
changed, the store is unchanged when no row matched, and a second `removeTrack`
of the same pair succeeds and changes nothing. -/
theorem removeTrack_idempotent (b : Binding) (env env2 : Env) (pid tid : String) (w : World)
    (hf : dbFault env 0 = none) (hf2 : dbFault env2 0 = none) :
    (removeTrack b env pid tid w).1 = .sent 200 .ok ∧
    (∀ r ∈ (removeTrack b env pid tid w).2.playlist_tracks,
      ¬(r.playlist_id = b.toInt (.str pid) ∧ r.track_id = b.toInt (.str tid))) ∧
    (∀ r : PlaylistTrackRow,
      ¬(r.playlist_id = b.toInt (.str pid) ∧ r.track_id = b.toInt (.str tid)) →
      (removeTrack b env pid tid w).2.playlist_tracks.count r = w.playlist_tracks.count r) ∧
    (removeTrack b env pid tid w).2
      = { w with playlist_tracks := (removeTrack b env pid tid w).2.playlist_tracks } ∧
    ((∀ r ∈ w.playlist_tracks,
        ¬(r.playlist_id = b.toInt (.str pid) ∧ r.track_id = b.toInt (.str tid))) →
      (removeTrack b env pid tid w).2 = w) ∧
    removeTrack b env2 pid tid (removeTrack b env pid tid w).2
      = (.sent 200 .ok, (removeTrack b env pid tid w).2) := by
  have hstep : ∀ (e : Env) (v : World), dbFault e 0 = none →
      removeTrack b e pid tid v = (.sent 200 .ok,
        { v with
          playlist_tracks := v.playlist_tracks.filter
            (fun r => !(r.playlist_id == b.toInt (.str pid) && r.track_id == b.toInt (.str tid))) }) := by
    intro e v he
    unfold removeTrack
    simp [he]
  rw [hstep env2 _ hf2, hstep env w hf]
  refine ⟨rfl, ?_, ?_, rfl, ?_, ?_⟩
  · intro r hr
    exact (not_pair_iff _ _ _ _).mp (List.mem_filter.mp hr).2
  · intro r hr
    simp only
    rw [List.count_filter]
    exact (not_pair_iff _ _ _ _).mpr hr
  · intro h
    have : w.playlist_tracks.filter
        (fun r => !(r.playlist_id == b.toInt (.str pid) && r.track_id == b.toInt (.str tid)))
        = w.playlist_tracks := by
      rw [List.filter_eq_self]
      intro r hr
      exact (not_pair_iff _ _ _ _).mpr (h r hr)
    simp only [this]
  · simp only [List.filter_filter, Bool.and_self]

/-- Witness of C10: the pair `(1, 7)` removed from a table that holds it and the
pair `(1, 8)`. -/
theorem removeTrack_idempotent_witness :
    (removeTrack decimalBinding (Env.calm 0 "a") "1" "7"
        { World.empty with playlist_tracks := [⟨1, 7, 0⟩, ⟨1, 8, 2⟩] }).2.playlist_tracks
      = [⟨1, 8, 2⟩] ∧
    removeTrack decimalBinding (Env.calm 1 "b") "1" "7"
        (removeTrack decimalBinding (Env.calm 0 "a") "1" "7"
          { World.empty with playlist_tracks := [⟨1, 7, 0⟩, ⟨1, 8, 2⟩] }).2
      = (.sent 200 .ok,
          (removeTrack decimalBinding (Env.calm 0 "a") "1" "7"
            { World.empty with playlist_tracks := [⟨1, 7, 0⟩, ⟨1, 8, 2⟩] }).2) :=
  ⟨by decide,
    (removeTrack_idempotent decimalBinding (Env.calm 0 "a") (Env.calm 1 "b") "1" "7"
      { World.empty with playlist_tracks := [⟨1, 7, 0⟩, ⟨1, 8, 2⟩] }
      (by decide) (by decide)).2.2.2.2.2⟩

/-- C7, as stated, fails twice on the code. A body that supplies the track
identifier `0` is answered with status 400, and a body that supplies position `5`
for a pair already stored with position `0` is answered `ok` while the table keeps
the row with position `0` and gets none with position `5`. -/
theorem addTrack_supplied_not_stored :
    addTrack decimalBinding (Env.calm 0 "a") "1" ⟨.num 0, .undefined⟩ World.empty
      = (.sent 400 (.error "trackId required"), World.empty) ∧
    (addTrack decimalBinding (Env.calm 0 "a") "1" ⟨.num 7, .undefined⟩
        World.empty).2.playlist_tracks = [⟨1, 7, 0⟩] ∧
    addTrack decimalBinding (Env.calm 1 "b") "1" ⟨.num 7, .num 5⟩
        (addTrack decimalBinding (Env.calm 0 "a") "1" ⟨.num 7, .undefined⟩ World.empty).2
      = (.sent 200 .ok, { World.empty with playlist_tracks := [⟨1, 7, 0⟩] }) := by
  decide

/-- C7, amended: `addTrack` answers 400 and leaves the store unchanged when the
track identifier of the body is absent or another falsy value (`null`, `false`,
`0`, the empty string). For every body with a truthy track identifier, when the
store does not fail, it answers `ok`, changes nothing but the membership table,
and a row for the pair is present afterwards: when the pair was not in the table,
a new row with the bound position (the supplied one, or the number `0` when none
is supplied); when it was, the table is left as it was. -/
theorem addTrack_validates_then_inserts (b : Binding) (env : Env) (id : String)
    (body : MembershipBody) (w : World) :
    (body.trackId.truthy = false →
      addTrack b env id body w = (.sent 400 (.error "trackId required"), w)) ∧
    (body.trackId = .undefined → body.trackId.truthy = false) ∧
    (body.trackId.truthy = true → dbFault env 0 = none →
      (addTrack b env id body w).1 = .sent 200 .ok ∧
      (addTrack b env id body w).2
        = { w with playlist_tracks := (addTrack b env id body w).2.playlist_tracks } ∧
      (∃ r ∈ (addTrack b env id body w).2.playlist_tracks,
        r.playlist_id = b.toInt (.str id) ∧ r.track_id = b.toInt body.trackId) ∧
      ((∀ r ∈ w.playlist_tracks,
          ¬(r.playlist_id = b.toInt (.str id) ∧ r.track_id = b.toInt body.trackId)) →
        (addTrack b env id body w).2.playlist_tracks
          = w.playlist_tracks ++ [⟨b.toInt (.str id), b.toInt body.trackId,
              b.toInt (match body.position with
                | .undefined => .num 0
                | supplied => supplied)⟩]) ∧
      ((∃ r ∈ w.playlist_tracks,
          r.playlist_id = b.toInt (.str id) ∧ r.track_id = b.toInt body.trackId) →
        (addTrack b env id body w).2.playlist_tracks = w.playlist_tracks)) := by
  refine ⟨?_, ?_, ?_⟩
  · intro ht
    unfold addTrack
    simp [ht]
  · intro hu
    rw [hu]; rfl
  · intro ht hf
    have hmemiff : ∀ row : PlaylistTrackRow,
        row.listing ∈ w.playlist_tracks.map PlaylistTrackRow.listing ↔
          ∃ r ∈ w.playlist_tracks,
            r.playlist_id = row.playlist_id ∧ r.track_id = row.track_id := by
      intro row
      simp only [List.mem_map, listing_eq_iff]
    refine ⟨(addTrack_ok_iff b env id body w).mpr ⟨ht, hf⟩, ?_, ?_, ?_, ?_⟩
    · unfold addTrack
      simp [ht, hf]
    · rw [addTrack_table b env id body w ht hf]
      have h := listing_mem_insertIgnore
        ⟨b.toInt (.str id), b.toInt body.trackId, b.toInt (body.position.orDefault (.num 0))⟩
        w.playlist_tracks
      obtain ⟨r, hr, he⟩ := List.mem_map.mp h
      exact ⟨r, hr, (listing_eq_iff _ _).mp he⟩
    · intro hnone
      rw [addTrack_table b env id body w ht hf, insertIgnore_of_not_mem]
      · cases hp : body.position <;> rfl
      · intro hc
        obtain ⟨r, hr, he⟩ := (hmemiff _).mp hc
        exact hnone r hr he
    · intro hsome
      rw [addTrack_table b env id body w ht hf]
      exact insertIgnore_of_mem _ _ ((hmemiff _).mpr hsome)

/-- Witness of the amended C7: playlist `1` and track `7` at position `3` on the
empty store. -/
theorem addTrack_validates_then_inserts_witness :
    (addTrack decimalBinding (Env.calm 0 "a") "1" ⟨.num 7, .num 3⟩ World.empty).1
      = .sent 200 .ok ∧
    (addTrack decimalBinding (Env.calm 0 "a") "1" ⟨.num 7, .num 3⟩ World.empty).2.playlist_tracks
      = [] ++ [⟨decimalBinding.toInt (.str "1"), decimalBinding.toInt (.num 7),
          decimalBinding.toInt (.num 3)⟩] ∧
    addTrack decimalBinding (Env.calm 0 "a") "1" ⟨.undefined, .num 3⟩ World.empty
      = (.sent 400 (.error "trackId required"), World.empty) :=
  ⟨((addTrack_validates_then_inserts decimalBinding (Env.calm 0 "a") "1" ⟨.num 7, .num 3⟩
      World.empty).2.2 (by decide) (by decide)).1,
    ((addTrack_validates_then_inserts decimalBinding (Env.calm 0 "a") "1" ⟨.num 7, .num 3⟩
      World.empty).2.2 (by decide) (by decide)).2.2.2.1 (by decide),
    (addTrack_validates_then_inserts decimalBinding (Env.calm 0 "a") "1" ⟨.undefined, .num 3⟩
      World.empty).1 (by decide)⟩

/-! ## Lemmas on the track table -/

theorem unlinkBestEffort_tracks (env : Env) (p : String) (w : World) :
    (unlinkBestEffort env p w).tracks = w.tracks := by
  unfold unlinkBestEffort
  split
  · split <;> rfl
  · rfl

theorem select_eq_nil_iff (t : Int) (rows : List TrackRow) :
    (rows.filter (fun r => r.id == t)).map (fun r => r.file_path) = [] ↔
      ∀ r ∈ rows, r.id ≠ t := by
  simp [List.filter_eq_nil_iff]

theorem select_cons (t : Int) (rows : List TrackRow) (p : String) (ps : List String)
    (h : (rows.filter (fun r => r.id == t)).map (fun r => r.file_path) = p :: ps) :
    ∃ r ∈ rows, r.id = t ∧ r.file_path = p := by
  cases hfl : rows.filter (fun r => r.id == t) with
  | nil => rw [hfl] at h; simp at h
  | cons r rs =>
    rw [hfl] at h
    simp only [List.map_cons, List.cons.injEq] at h
    have hr : r ∈ rows.filter (fun r => r.id == t) := by rw [hfl]; simp
    obtain ⟨hm, hid⟩ := List.mem_filter.mp hr
    exact ⟨r, hm, by simpa using hid, h.1⟩

theorem deleteTrack_no_row (b : Binding) (env : Env) (id : String) (w : World)
    (hf : dbFault env 0 = none) (h : ∀ r ∈ w.tracks, r.id ≠ b.toInt (.str id)) :
    deleteTrack b env id w = (.sent 404 .statusText, w) := by
  unfold deleteTrack
  simp only [hf, (select_eq_nil_iff _ _).mpr h]

theorem deleteTrack_row (b : Binding) (env : Env) (id : String) (w : World)
    (hf0 : dbFault env 0 = none) (hf1 : dbFault env 1 = none)
    (h : ∃ r ∈ w.tracks, r.id = b.toInt (.str id)) :
    ∃ r ∈ w.tracks, r.id = b.toInt (.str id) ∧
      deleteTrack b env id w = (.sent 200 .ok,
        unlinkBestEffort env r.file_path
          { w with tracks := w.tracks.filter (fun r => r.id != b.toInt (.str id)) }) := by
  cases hsel : (w.tracks.filter (fun r => r.id == b.toInt (.str id))).map (fun r => r.file_path) with
  | nil =>
    obtain ⟨r, hr, hid⟩ := h
    exact absurd hid ((select_eq_nil_iff _ _).mp hsel r hr)
  | cons p ps =>
    obtain ⟨r, hr, hid, hp⟩ := select_cons _ _ p ps hsel
    refine ⟨r, hr, hid, ?_⟩
    unfold deleteTrack
    simp only [hf0, hf1, hsel, hp]

theorem getTracks_ok (env : Env) (w : World) (hf : dbFault env 0 = none) :
    getTracks env w
      = (.sent 200 (.tracks ((tracksByCreatedDesc w.tracks).map TrackRow.listing)), w) := by
  unfold getTracks
  simp [hf]

theorem mem_tracksByCreatedDesc (r : TrackRow) (rows : List TrackRow) :
    r ∈ tracksByCreatedDesc rows ↔ r ∈ rows :=
  (List.perm_insertionSort _ rows).mem_iff

/-! ## Track Service: the claims -/

/-- C2: when the store does not fail, in every store state: if no track row has
the identifier, `delete(trackId)` answers 404 and leaves the store, track table
and file store included, unchanged; if such a row exists, `delete(trackId)`
answers `ok`, and the `list()` that follows has no entry with that identifier and
has exactly the entries of the other tracks. -/
theorem deleteTrack_then_list (b : Binding) (env env2 : Env) (id : String) (w : World)
    (hf0 : dbFault env 0 = none) (hf1 : dbFault env 1 = none) (hl : dbFault env2 0 = none) :
    ((∀ r ∈ w.tracks, r.id ≠ b.toInt (.str id)) →
      deleteTrack b env id w = (.sent 404 .statusText, w)) ∧
    ((∃ r ∈ w.tracks, r.id = b.toInt (.str id)) →
      (deleteTrack b env id w).1 = .sent 200 .ok ∧
      ∃ rows, (getTracks env2 (deleteTrack b env id w).2).1 = .sent 200 (.tracks rows) ∧
        (∀ e ∈ rows, e.id ≠ b.toInt (.str id)) ∧
        (∀ r ∈ w.tracks, r.id ≠ b.toInt (.str id) → r.listing ∈ rows) ∧
        (∀ e ∈ rows, ∃ r ∈ w.tracks, r.id ≠ b.toInt (.str id) ∧ r.listing = e)) := by
  refine ⟨deleteTrack_no_row b env id w hf0, ?_⟩
  intro hex
  obtain ⟨r0, _, _, hdel⟩ := deleteTrack_row b env id w hf0 hf1 hex
  rw [hdel, getTracks_ok env2 _ hl]
  refine ⟨rfl, _, rfl, ?_, ?_, ?_⟩
  · intro e he
    obtain ⟨r, hr, rfl⟩ := List.mem_map.mp he
    rw [mem_tracksByCreatedDesc, unlinkBestEffort_tracks] at hr
    simpa [TrackRow.listing] using (List.mem_filter.mp hr).2
  · intro r hr hne
    refine List.mem_map.mpr ⟨r, ?_, rfl⟩
    rw [mem_tracksByCreatedDesc, unlinkBestEffort_tracks]
    exact List.mem_filter.mpr ⟨hr, by simpa using hne⟩
  · intro e he
    obtain ⟨r, hr, rfl⟩ := List.mem_map.mp he
    rw [mem_tracksByCreatedDesc, unlinkBestEffort_tracks] at hr
    exact ⟨r, (List.mem_filter.mp hr).1, by simpa using (List.mem_filter.mp hr).2, rfl⟩

/-- Witness of C2: track `1` deleted from a store that holds the tracks `1` and `2`. -/
theorem deleteTrack_then_list_witness :
    (deleteTrack decimalBinding (Env.calm 9 "a") "1"
        { World.empty with
          tracks := [⟨1, "A", "", "", "uploads/x", none, none, 3⟩,
            ⟨2, "B", "", "", "uploads/y", none, none, 4⟩] }).1 = .sent 200 .ok ∧
    deleteTrack decimalBinding (Env.calm 9 "a") "5"
        { World.empty with tracks := [⟨1, "A", "", "", "uploads/x", none, none, 3⟩] }
      = (.sent 404 .statusText,
          { World.empty with tracks := [⟨1, "A", "", "", "uploads/x", none, none, 3⟩] }) :=
  ⟨((deleteTrack_then_list decimalBinding (Env.calm 9 "a") (Env.calm 10 "b") "1"
      { World.empty with
        tracks := [⟨1, "A", "", "", "uploads/x", none, none, 3⟩,
          ⟨2, "B", "", "", "uploads/y", none, none, 4⟩] }
      (by decide) (by decide) (by decide)).2 (by decide)).1,
    (deleteTrack_then_list decimalBinding (Env.calm 9 "a") (Env.calm 10 "b") "5"
      { World.empty with tracks := [⟨1, "A", "", "", "uploads/x", none, none, 3⟩] }
      (by decide) (by decide) (by decide)).1 (by decide)⟩

/-- C3: for every existing track, when the store does not fail, `delete(trackId)`
answers `ok` and no row with that identifier is left, in every environment and
file store: whether `unlinkSync` removes the file, throws, or is never called
because the file is missing. When it throws, the failure goes to the log and the
file store is left as it was. -/
theorem deleteTrack_ok_despite_unlink (b : Binding) (env : Env) (id : String) (w : World)
    (hf0 : dbFault env 0 = none) (hf1 : dbFault env 1 = none)
    (hex : ∃ r ∈ w.tracks, r.id = b.toInt (.str id)) :
    (deleteTrack b env id w).1 = .sent 200 .ok ∧
    (∀ r ∈ (deleteTrack b env id w).2.tracks, r.id ≠ b.toInt (.str id)) ∧
    (env.unlinkError ≠ none → (deleteTrack b env id w).2.files = w.files) := by
  obtain ⟨r0, _, _, hdel⟩ := deleteTrack_row b env id w hf0 hf1 hex
  rw [hdel]
  refine ⟨rfl, ?_, ?_⟩
  · intro r hr
    simp only [unlinkBestEffort_tracks] at hr
    simpa using (List.mem_filter.mp hr).2
  · intro hu
    simp only
    unfold unlinkBestEffort
    split
    · split
      · rfl
      · rename_i h; exact absurd h hu
    · rfl

/-- Witness of C3: the file of track `1` is on disk and `unlinkSync` throws. -/
theorem deleteTrack_ok_despite_unlink_witness :
    deleteTrack decimalBinding ⟨[], 9, some "EPERM", "a", none⟩ "1"
        { World.empty with
          tracks := [⟨1, "A", "", "", "uploads/x", none, none, 3⟩]
          files := [⟨"uploads/x", [1, 2]⟩] }
      = (.sent 200 .ok,
          { World.empty with
            files := [⟨"uploads/x", [1, 2]⟩]
            log := ["Failed to delete file EPERM"] }) ∧
    (deleteTrack decimalBinding ⟨[], 9, some "EPERM", "a", none⟩ "1"
        { World.empty with
          tracks := [⟨1, "A", "", "", "uploads/x", none, none, 3⟩]
          files := [⟨"uploads/x", [1, 2]⟩] }).1 = .sent 200 .ok :=
  ⟨by decide,
    (deleteTrack_ok_despite_unlink decimalBinding ⟨[], 9, some "EPERM", "a", none⟩ "1"
      { World.empty with
        tracks := [⟨1, "A", "", "", "uploads/x", none, none, 3⟩]
        files := [⟨"uploads/x", [1, 2]⟩] }
      (by decide) (by decide) (by decide)).1⟩

/-- C4: in every store state and for every metadata body, `ingest` without a binary
payload answers 400 and leaves the store as it was: no row and no file is created. -/
theorem ingest_without_payload (env : Env) (body : TrackFields) (w : World) :
    ingest env none body w = (.sent 400 (.error "No file provided"), w) ∧
    (ingest env none body w).2.tracks = w.tracks ∧
    (ingest env none body w).2.files = w.files := by
  refine ⟨rfl, rfl, rfl⟩

/-- C5: for every successful `ingest(payload, {title?, artist?, album?})`, the
answer carries the new identifier, the title (the supplied one, or the original
file name of the payload when absent), the artist and the album (the supplied
ones, or the empty string when absent) and the file location, at which the file
store holds the payload; and the `list()` that follows has an entry with that
identifier, title, artist and album, made of the six listed columns, the file
location not among them. -/
theorem ingest_then_list (env env2 : Env) (part : Option Upload) (body : TrackFields)
    (w : World) (answer : Body)
    (h : (ingest env part body w).1 = .sent 200 answer) (hl : dbFault env2 0 = none) :
    ∃ up, part = some up ∧
      answer = .track w.trackAutoInc
        (match body.title with
          | some t => t
          | none => up.originalname)
        (match body.artist with
          | some a => a
          | none => "")
        (match body.album with
          | some a => a
          | none => "")
        (uploadDir env ++ "/" ++ env.tmpName) ∧
      readFile (ingest env part body w).2 (uploadDir env ++ "/" ++ env.tmpName) = some up.bytes ∧
      ∃ rows, (getTracks env2 (ingest env part body w).2).1 = .sent 200 (.tracks rows) ∧
        (⟨w.trackAutoInc,
          (match body.title with
            | some t => t
            | none => up.originalname),
          (match body.artist with
            | some a => a
            | none => ""),
          (match body.album with
            | some a => a
            | none => ""), none, none⟩ : TrackListing) ∈ rows := by
  cases part with
  | none => simp [ingest, postTrack, uploadSingle] at h
  | some up =>
    cases hf : dbFault env 0 with
    | some err => simp [ingest, postTrack, uploadSingle, hf] at h
    | none =>
      have hing : ingest env (some up) body w =
          (.sent 200 (.track w.trackAutoInc (body.title.getD up.originalname)
              (body.artist.getD "") (body.album.getD "") (uploadDir env ++ "/" ++ env.tmpName)),
            { w with
              files := ⟨uploadDir env ++ "/" ++ env.tmpName, up.bytes⟩ ::
                w.files.filter (fun f => f.path != uploadDir env ++ "/" ++ env.tmpName)
              tracks := w.tracks ++ [⟨w.trackAutoInc, body.title.getD up.originalname,
                body.artist.getD "", body.album.getD "",
                uploadDir env ++ "/" ++ env.tmpName, none, none, env.now⟩]
              trackAutoInc := w.trackAutoInc + 1 }) := by
        simp [ingest, postTrack, uploadSingle, hf]
      have hT : (match body.title with
          | some t => t
          | none => up.originalname) = body.title.getD up.originalname := by
        cases body.title <;> rfl
      have hA : (match body.artist with
          | some a => a
          | none => "") = body.artist.getD "" := by
        cases body.artist <;> rfl
      have hL : (match body.album with
          | some a => a
          | none => "") = body.album.getD "" := by
        cases body.album <;> rfl
      rw [hing] at h
      simp only [Outcome.sent.injEq, true_and] at h
      refine ⟨up, rfl, ?_, ?_, ?_⟩
      · rw [← h, hT, hA, hL]
      · rw [hing]
        simp [readFile]
      · rw [hing, getTracks_ok env2 _ hl, hT, hA, hL]
        refine ⟨_, rfl, List.mem_map.mpr ⟨⟨w.trackAutoInc, body.title.getD up.originalname,
          body.artist.getD "", body.album.getD "",
          uploadDir env ++ "/" ++ env.tmpName, none, none, env.now⟩, ?_, rfl⟩⟩
        rw [mem_tracksByCreatedDesc]
        simp

/-- Witness of C5: a payload named `a.mp3` ingested with the title `Song A` and no
artist or album, on the empty store. -/
theorem ingest_then_list_witness :
    ∃ up, some (⟨"a.mp3", [1, 2, 3]⟩ : Upload) = some up ∧
      Body.track 1 "Song A" "" "" "uploads/ab12" = .track World.empty.trackAutoInc
        (match (⟨some "Song A", none, none⟩ : TrackFields).title with
          | some t => t
          | none => up.originalname)
        (match (⟨some "Song A", none, none⟩ : TrackFields).artist with
          | some a => a
          | none => "")
        (match (⟨some "Song A", none, none⟩ : TrackFields).album with
          | some a => a
          | none => "")
        (uploadDir (Env.calm 5 "ab12") ++ "/" ++ (Env.calm 5 "ab12").tmpName) ∧
      readFile (ingest (Env.calm 5 "ab12") (some ⟨"a.mp3", [1, 2, 3]⟩)
          ⟨some "Song A", none, none⟩ World.empty).2
        (uploadDir (Env.calm 5 "ab12") ++ "/" ++ (Env.calm 5 "ab12").tmpName) = some up.bytes ∧
      ∃ rows, (getTracks (Env.calm 6 "cd34")
          (ingest (Env.calm 5 "ab12") (some ⟨"a.mp3", [1, 2, 3]⟩)
            ⟨some "Song A", none, none⟩ World.empty).2).1 = .sent 200 (.tracks rows) ∧
        (⟨World.empty.trackAutoInc,
          (match (⟨some "Song A", none, none⟩ : TrackFields).title with
            | some t => t
            | none => up.originalname),
          (match (⟨some "Song A", none, none⟩ : TrackFields).artist with
            | some a => a
            | none => ""),
          (match (⟨some "Song A", none, none⟩ : TrackFields).album with
            | some a => a
            | none => ""), none, none⟩ : TrackListing) ∈ rows :=
  ingest_then_list (Env.calm 5 "ab12") (Env.calm 6 "cd34") (some ⟨"a.mp3", [1, 2, 3]⟩)
    ⟨some "Song A", none, none⟩ World.empty (.track 1 "Song A" "" "" "uploads/ab12")
    (by decide) (by decide)

/-! ## Track identifiers on reachable states -/

theorem trackIdsFresh_filter (w : World) (p : TrackRow → Bool) (h : TrackIdsFresh w) :
    TrackIdsFresh { w with tracks := w.tracks.filter p } :=
  ⟨((List.filter_sublist _).map _).nodup h.1, fun r hr => h.2 r (List.mem_filter.mp hr).1⟩

theorem trackIdsFresh_congr (w w' : World) (ht : w'.tracks = w.tracks)
    (hc : w'.trackAutoInc = w.trackAutoInc) (h : TrackIdsFresh w) : TrackIdsFresh w' := by
  unfold TrackIdsFresh
  rw [ht, hc]
  exact h

theorem unlinkBestEffort_trackAutoInc (env : Env) (p : String) (w : World) :
    (unlinkBestEffort env p w).trackAutoInc = w.trackAutoInc := by
  unfold unlinkBestEffort
  split
  · split <;> rfl
  · rfl

theorem ingest_trackIdsFresh (env : Env) (part : Option Upload) (body : TrackFields)
    (w : World) (h : TrackIdsFresh w) : TrackIdsFresh (ingest env part body w).2 := by
  cases part with
  | none => exact h
  | some up =>
    cases hf : dbFault env 0 with
    | some err =>
      refine trackIdsFresh_congr w _ ?_ ?_ h <;> simp [ingest, postTrack, uploadSingle, hf]
    | none =>
      have ht : (ingest env (some up) body w).2.tracks =
          w.tracks ++ [⟨w.trackAutoInc, body.title.getD up.originalname,
            body.artist.getD "", body.album.getD "",
            uploadDir env ++ "/" ++ env.tmpName, none, none, env.now⟩] := by
        simp [ingest, postTrack, uploadSingle, hf]
      have hc : (ingest env (some up) body w).2.trackAutoInc = w.trackAutoInc + 1 := by
        simp [ingest, postTrack, uploadSingle, hf]
      unfold TrackIdsFresh
      rw [ht, hc]
      constructor
      · rw [List.map_append, List.nodup_append]
        refine ⟨h.1, by simp, ?_⟩
        intro a ha hb
        simp only [List.map_cons, List.map_nil, List.mem_singleton] at hb
        obtain ⟨r, hr, rfl⟩ := List.mem_map.mp ha
        have := h.2 r hr
        omega
      · intro r hr
        rcases List.mem_append.mp hr with hr | hr
        · have := h.2 r hr
          omega
        · simp only [List.mem_singleton] at hr
          rw [hr]
          simp

theorem deleteTrack_trackIdsFresh (b : Binding) (env : Env) (id : String) (w : World)
    (h : TrackIdsFresh w) : TrackIdsFresh (deleteTrack b env id w).2 := by
  unfold deleteTrack
  simp only
  split
  · exact h
  · split
    · exact h
    · split
      · exact h
      · exact trackIdsFresh_congr _ _ (unlinkBestEffort_tracks _ _ _)
          (unlinkBestEffort_trackAutoInc _ _ _) (trackIdsFresh_filter w _ h)

theorem handle_trackIdsFresh (b : Binding) (env : Env) (r : Request) (w : World)
    (h : TrackIdsFresh w) : TrackIdsFresh (handle b env r w).2 := by
  cases r with
  | postTrack part body => exact ingest_trackIdsFresh env part body w h
  | getTracks =>
    show TrackIdsFresh (getTracks env w).2
    unfold getTracks; split <;> exact h
  | streamTrack id =>
    show TrackIdsFresh (streamTrack b env id w).2
    unfold streamTrack
    simp only
    split
    · exact h
    · split <;> exact h
  | postPlaylist body =>
    show TrackIdsFresh (postPlaylist b env body w).2
    unfold postPlaylist
    split
    · exact h
    · split <;> exact h
  | getPlaylists =>
    show TrackIdsFresh (getPlaylists env w).2
    unfold getPlaylists; split <;> exact h
  | addTrack id body =>
    show TrackIdsFresh (addTrack b env id body w).2
    unfold addTrack
    simp only
    split
    · exact h
    · split <;> exact h
  | listMemberships =>
    show TrackIdsFresh (listMemberships env w).2
    unfold listMemberships; split <;> exact h
  | deletePlaylist id =>
    show TrackIdsFresh (deletePlaylist b env id w).2
    unfold deletePlaylist; split <;> exact h
  | removeTrack pid tid =>
    show TrackIdsFresh (removeTrack b env pid tid w).2
    unfold removeTrack; split <;> exact h
  | deleteTrack id => exact deleteTrack_trackIdsFresh b env id w h

theorem reachable_trackIdsFresh (b : Binding) (w : World) (h : Reachable b w) :
    TrackIdsFresh w := by
  induction h with
  | empty => simp [TrackIdsFresh, World.empty]
  | step env r _ ih => exact handle_trackIdsFresh b env r _ ih

/-! ## Streaming Resolver -/

theorem sendFile_ne_notFound (w : World) (p : String) :
    sendFile w p ≠ .sent 404 .statusText := by
  unfold sendFile
  split
  · simp
  · split <;> simp

theorem sendFile_served (w : World) (p : String) (bytes : List Nat)
    (hd : dotfileIgnored p = false) (hb : readFile w p = some bytes) :
    sendFile w p = .sent 200 (.file bytes) := by
  simp [sendFile, hd, hb]

theorem sendFile_not_served (w : World) (p : String)
    (h : dotfileIgnored p = true ∨ readFile w p = none) :
    sendFile w p = .sent 404 .errorPage := by
  unfold sendFile
  rcases h with h | h
  · simp [h]
  · split
    · rfl
    · simp [h]

theorem sendFile_status_notFound_iff (w : World) (p : String) :
    (sendFile w p).status = some 404 ↔ (dotfileIgnored p = true ∨ readFile w p = none) := by
  constructor
  · intro h
    by_cases hd : dotfileIgnored p = true
    · exact Or.inl hd
    · cases hb : readFile w p with
      | none => exact Or.inr rfl
      | some bytes =>
        rw [sendFile_served w p bytes (by simpa using hd) hb] at h
        simp [Outcome.status] at h
  · intro h
    rw [sendFile_not_served w p h]
    rfl

theorem streamTrack_no_row (b : Binding) (env : Env) (id : String) (w : World)
    (hf : dbFault env 0 = none) (h : ∀ r ∈ w.tracks, r.id ≠ b.toInt (.str id)) :
    streamTrack b env id w = (.sent 404 .statusText, w) := by
  unfold streamTrack
  simp only [hf, (select_eq_nil_iff _ _).mpr h]

theorem streamTrack_row (b : Binding) (env : Env) (id : String) (w : World)
    (hf : dbFault env 0 = none) (h : ∃ r ∈ w.tracks, r.id = b.toInt (.str id)) :
    ∃ r ∈ w.tracks, r.id = b.toInt (.str id) ∧
      streamTrack b env id w = (sendFile w r.file_path, w) := by
  cases hsel : (w.tracks.filter (fun r => r.id == b.toInt (.str id))).map (fun r => r.file_path) with
  | nil =>
    obtain ⟨r, hr, hid⟩ := h
    exact absurd hid ((select_eq_nil_iff _ _).mp hsel r hr)
  | cons p ps =>
    obtain ⟨r, hr, hid, hp⟩ := select_cons _ _ p ps hsel
    refine ⟨r, hr, hid, ?_⟩
    unfold streamTrack
    simp only [hf, hsel, hp]

theorem deleteTrack_ok_row_gone (b : Binding) (env : Env) (id : String) (w : World)
    (h : (deleteTrack b env id w).1 = .sent 200 .ok) :
    ∀ r ∈ (deleteTrack b env id w).2.tracks, r.id ≠ b.toInt (.str id) := by
  cases hf0 : dbFault env 0 with
  | some e => simp [deleteTrack, hf0] at h
  | none =>
    cases hsel : (w.tracks.filter (fun r => r.id == b.toInt (.str id))).map
        (fun r => r.file_path) with
    | nil => simp only [deleteTrack, hf0, hsel] at h; simp at h
    | cons p ps =>
      cases hf1 : dbFault env 1 with
      | some e => simp only [deleteTrack, hf0, hsel, hf1] at h; simp at h
      | none =>
        simp only [deleteTrack, hf0, hsel, hf1, unlinkBestEffort_tracks]
        intro r hr
        simpa using (List.mem_filter.mp hr).2

/-- C8, as stated, fails on the code. With a track row `1` whose file is no
longer in the file store, `resolve(1)` answers status 404 although the row exists,
and serves no bytes; the same holds for a row whose file is there under a name
that begins with a dot. -/
theorem streamTrack_notFound_with_row :
    (streamTrack decimalBinding (Env.calm 9 "a") "1"
        { World.empty with
          tracks := [⟨1, "A", "", "", "uploads/x", none, none, 3⟩]
          trackAutoInc := 2 }).1 = .sent 404 .errorPage ∧
    (streamTrack decimalBinding (Env.calm 9 "a") "1"
        { World.empty with
          tracks := [⟨1, "A", "", "", "uploads/.x", none, none, 3⟩]
          files := [⟨"uploads/.x", [1, 2]⟩]
          trackAutoInc := 2 }).1 = .sent 404 .errorPage := by
  decide

/-- C8, amended: when the lookup does not fail, `resolve(trackId)` answers the bare
404 of `NotFoundError` exactly when no track row has the identifier. Otherwise it
hands the location recorded on a row with that identifier (on a reachable store,
where identifiers are unique, on every such row) to `res.sendFile`: the bytes the
file store holds there are served when a file is there and is not an ignored
dotfile, and status 404 with the error page of the framework is answered when it
is not. So the status is 404 exactly when no row has the identifier or the file of
the row cannot be served. After a successful `delete(trackId)`, `resolve(trackId)`
answers the bare 404. -/
theorem streamTrack_serves_recorded_file (b : Binding) (env envd : Env) (id : String)
    (w : World) (hf : dbFault env 0 = none) :
    ((streamTrack b env id w).1 = .sent 404 .statusText ↔
      ∀ r ∈ w.tracks, r.id ≠ b.toInt (.str id)) ∧
    ((∃ r ∈ w.tracks, r.id = b.toInt (.str id)) →
      ∃ r ∈ w.tracks, r.id = b.toInt (.str id) ∧
        (streamTrack b env id w).1 = sendFile w r.file_path ∧
        (∀ bytes, dotfileIgnored r.file_path = false → readFile w r.file_path = some bytes →
          (streamTrack b env id w).1 = .sent 200 (.file bytes)) ∧
        (dotfileIgnored r.file_path = true ∨ readFile w r.file_path = none →
          (streamTrack b env id w).1 = .sent 404 .errorPage) ∧
        ((streamTrack b env id w).1.status = some 404 ↔
          (dotfileIgnored r.file_path = true ∨ readFile w r.file_path = none))) ∧
    (Reachable b w → ∀ r ∈ w.tracks, r.id = b.toInt (.str id) →
      (streamTrack b env id w).1 = sendFile w r.file_path) ∧
    ((deleteTrack b envd id w).1 = .sent 200 .ok →
      (streamTrack b env id (deleteTrack b envd id w).2).1 = .sent 404 .statusText) := by
  refine ⟨⟨?_, ?_⟩, ?_, ?_, ?_⟩
  · intro h404
    by_contra hne
    have hex : ∃ r ∈ w.tracks, r.id = b.toInt (.str id) := by
      by_contra hno
      exact hne (fun r hr hid => hno ⟨r, hr, hid⟩)
    obtain ⟨r, _, _, hs⟩ := streamTrack_row b env id w hf hex
    rw [hs] at h404
    exact sendFile_ne_notFound w r.file_path h404
  · intro h
    rw [streamTrack_no_row b env id w hf h]
  · intro hex
    obtain ⟨r, hr, hid, hs⟩ := streamTrack_row b env id w hf hex
    refine ⟨r, hr, hid, by rw [hs], ?_, ?_, ?_⟩
    · intro bytes hd hb
      rw [hs]
      exact sendFile_served w r.file_path bytes hd hb
    · intro h
      rw [hs]
      exact sendFile_not_served w r.file_path h
    · rw [hs]
      exact sendFile_status_notFound_iff w r.file_path
  · intro hw r hr hid
    obtain ⟨r', hr', hid', hs⟩ := streamTrack_row b env id w hf ⟨r, hr, hid⟩
    have heq : r' = r :=
      List.inj_on_of_nodup_map (reachable_trackIdsFresh b w hw).1 hr' hr (hid'.trans hid.symm)
    rw [hs, heq]
  · intro hd
    rw [streamTrack_no_row b env id _ hf (deleteTrack_ok_row_gone b envd id w hd)]

/-- Witness of the amended C8: track `1` of a store that holds its file is
streamed, and is not found once it has been deleted. -/
theorem streamTrack_serves_recorded_file_witness :
    (streamTrack decimalBinding (Env.calm 9 "a") "1"
        { World.empty with
          tracks := [⟨1, "A", "", "", "uploads/x", none, none, 3⟩]
          files := [⟨"uploads/x", [1, 2]⟩]
          trackAutoInc := 2 }).1 = .sent 200 (.file [1, 2]) ∧
    (streamTrack decimalBinding (Env.calm 9 "a") "1"
        (deleteTrack decimalBinding (Env.calm 10 "b") "1"
          { World.empty with
            tracks := [⟨1, "A", "", "", "uploads/x", none, none, 3⟩]
            files := [⟨"uploads/x", [1, 2]⟩]
            trackAutoInc := 2 }).2).1 = .sent 404 .statusText :=
  ⟨by decide,
    (streamTrack_serves_recorded_file decimalBinding (Env.calm 9 "a") (Env.calm 10 "b") "1"
      { World.empty with
        tracks := [⟨1, "A", "", "", "uploads/x", none, none, 3⟩]
        files := [⟨"uploads/x", [1, 2]⟩]
        trackAutoInc := 2 } (by decide)).2.2.2 (by decide)⟩

/-! ## Storage failures -/

theorem unguarded_handlers_raise (b : Binding) (env : Env) (err : String) (w : World)
    (hf : dbFault env 0 = some err) :
    (∀ id, streamTrack b env id w = (.raised err, w)) ∧
    getTracks env w = (.raised err, w) ∧
    getPlaylists env w = (.raised err, w) ∧
    listMemberships env w = (.raised err, w) ∧
    (∀ id, deletePlaylist b env id w = (.raised err, w)) ∧
    (∀ pid tid, removeTrack b env pid tid w = (.raised err, w)) ∧
    (∀ id, deleteTrack b env id w = (.raised err, w)) ∧
    (∀ body, body.name.truthy = true → postPlaylist b env body w = (.raised err, w)) ∧
    (∀ id body, body.trackId.truthy = true → addTrack b env id body w = (.raised err, w)) ∧
    (∀ up body, (ingest env (some up) body w).1 = .sent 500 (.error "Upload failed")) := by
  refine ⟨?_, ?_, ?_, ?_, ?_, ?_, ?_, ?_, ?_, ?_⟩
  · intro id; simp [streamTrack, hf]
  · simp [getTracks, hf]
  · simp [getPlaylists, hf]
  · simp [listMemberships, hf]
  · intro id; simp [deletePlaylist, hf]
  · intro pid tid; simp [removeTrack, hf]
  · intro id; simp [deleteTrack, hf]
  · intro body ht; simp [postPlaylist, hf, ht]
  · intro id body ht; simp [addTrack, hf, ht]
  · intro up body; simp [ingest, postTrack, uploadSingle, hf]

/-- C6 on the code: with the store refusing the connection, `POST /api/tracks`
answers 500 with the body `Upload failed`, while `GET /api/tracks`, the track
stream, the track deletion and `GET /api/playlist-tracks` send no response at
all: the database error leaves the handler. -/
theorem storage_failure_unanswered :
    (ingest ⟨[some "connect ECONNREFUSED 127.0.0.1:3306"], 0, none, "ab12", none⟩
        (some ⟨"a.mp3", [1, 2, 3]⟩) ⟨none, none, none⟩ World.empty).1
      = .sent 500 (.error "Upload failed") ∧
    (getTracks ⟨[some "connect ECONNREFUSED 127.0.0.1:3306"], 0, none, "ab12", none⟩
        World.empty).1
      = .raised "connect ECONNREFUSED 127.0.0.1:3306" ∧
    (streamTrack decimalBinding
        ⟨[some "connect ECONNREFUSED 127.0.0.1:3306"], 0, none, "ab12", none⟩ "1"
        World.empty).1
      = .raised "connect ECONNREFUSED 127.0.0.1:3306" ∧
    (deleteTrack decimalBinding
        ⟨[some "connect ECONNREFUSED 127.0.0.1:3306"], 0, none, "ab12", none⟩ "1"
        World.empty).1
      = .raised "connect ECONNREFUSED 127.0.0.1:3306" ∧
    (listMemberships ⟨[some "connect ECONNREFUSED 127.0.0.1:3306"], 0, none, "ab12", none⟩
        World.empty).1
      = .raised "connect ECONNREFUSED 127.0.0.1:3306" := by
  decide

end Musicbox
